import Mathlib

/-!
Shallow embedding of the deadline/notification core of the repository
(backend/app): models/processo.py, models/notificacao.py,
repositories/base.py, repositories/notificacao_repository.py,
repositories/processo_repository.py, services/notificacao_service.py,
services/processo_service.py.

Modelling conventions:
* UUIDs are `Nat`; dates and datetimes are `Int` day/instant counts, with
  "today"/"now" passed explicitly where the Python calls `date.today()` /
  `datetime.now()`.
* A SQLAlchemy table is a `List` of records kept in creation order, so the
  `order_by(created_at)` in `get_pendentes_envio` is the ambient list order.
* Python calls that cannot succeed are modelled as `Except PyError`:
  - the service reads `prefs.tipos_ativos` / `prefs.canais_ativos`
    (notificacao_service.py lines 221 and 286-289) but
    `PreferenciaNotificacao` (models/notificacao.py lines 158-199) defines
    neither column;
  - it reads `TipoNotificacao.PRAZO_URGENTE` (line 93), not a member of the
    enum (models/notificacao.py lines 18-33);
  - the scan reads `prazo.responsavel_id` (line 366), an attribute the
    `Prazo` model does not define;
  - `criar_notificacao_prazo` constructs `NotificacaoCreate(...)` (lines
    101-110) without the schema's required `usuario_id` field
    (schemas/notificacao.py line 30), a pydantic ValidationError;
  - `criar_notificacao` calls `self._repo.create(usuario_id=...,
    **dados.model_dump())` (lines 56-59), passing `usuario_id` twice since
    `model_dump()` contains the schema's own `usuario_id`, a TypeError.
-/

/-- models/processo.py lines 85-92: `StatusPrazo`. -/
inductive StatusPrazo
  | pendente
  | em_andamento
  | cumprido
  | perdido
  | cancelado
deriving DecidableEq, Repr

/-- The `.value` string of a `StatusPrazo` member. -/
def StatusPrazo.value : StatusPrazo → String
  | .pendente => "pendente"
  | .em_andamento => "em_andamento"
  | .cumprido => "cumprido"
  | .perdido => "perdido"
  | .cancelado => "cancelado"

/-- models/notificacao.py lines 18-33: `TipoNotificacao`.  Note there is no
`PRAZO_URGENTE` member, although notificacao_service.py line 93 refers to
one. -/
inductive TipoNotificacao
  | prazo_vencendo
  | prazo_hoje
  | prazo_vencido
  | novo_andamento
  | mudanca_fase
  | documento_processado
  | sistema
  | alerta
deriving DecidableEq, Repr

/-- models/notificacao.py lines 36-42: `CanalNotificacao`. -/
inductive CanalNotificacao
  | push
  | email
  | sms
  | in_app
deriving DecidableEq, Repr

/-- models/notificacao.py lines 45-51: `StatusNotificacao`. -/
inductive StatusNotificacao
  | pendente
  | enviada
  | lida
  | falha
deriving DecidableEq, Repr

/-- A Python runtime error relevant to the embedded code paths: a missing
attribute, a pydantic validation failure naming the missing required field,
or a duplicate keyword argument. -/
inductive PyError
  | attributeError (attr : String)
  | validationError (field : String)
  | typeError (kwarg : String)
deriving DecidableEq, Repr

/-- models/processo.py (class `Prazo`, lines 238-324): the columns the
embedded operations read or write.  `processo_numero` inlines the
`processo.numero_principal` reached through the `processo` relationship.
The model defines no `responsavel_id` column (see below). -/
structure Prazo where
  id : Nat
  escritorio_id : Nat
  processo_id : Nat
  processo_numero : String
  descricao : String
  data_fatal : Int
  status : StatusPrazo
  data_cumprimento : Option Int
  cumprido_por_id : Option Nat
deriving DecidableEq, Repr

/-- The Python expression `prazo.responsavel_id` (notificacao_service.py
lines 366-368): `Prazo` defines no such attribute (`Processo` has an
`advogado_responsavel_id`, `Prazo` only a `cumprido_por_id`), so the lookup
raises AttributeError. -/
def Prazo.responsavel_id (_ : Prazo) : Except PyError (Option Nat) :=
  .error (.attributeError "responsavel_id")

/-- models/processo.py lines 305-310: `Prazo.dias_restantes` returns 0 for a
non-PENDENTE prazo and `(data_fatal - date.today()).days` otherwise. -/
def Prazo.dias_restantes (p : Prazo) (today : Int) : Int :=
  if p.status ≠ StatusPrazo.pendente then 0
  else p.data_fatal - today

/-- models/processo.py lines 312-315: `Prazo.is_urgente`. -/
def Prazo.is_urgente (p : Prazo) (today : Int) : Bool :=
  decide (0 < p.dias_restantes today) && decide (p.dias_restantes today ≤ 3)

/-- models/processo.py lines 317-320: `Prazo.is_vencido`. -/
def Prazo.is_vencido (p : Prazo) (today : Int) : Bool :=
  decide (p.dias_restantes today < 0) && decide (p.status = StatusPrazo.pendente)

/-- notificacao_service.py lines 84-99: the `if dias_restantes <= 0 / elif
dias_restantes == 0 / elif dias_restantes <= 3 / else` chain of
`criar_notificacao_prazo` selecting the notification tier.  The `== 0` branch
is kept exactly as written (it is unreachable, because `<= 0` is tested
first), and the `<= 3` branch reads the nonexistent enum member
`TipoNotificacao.PRAZO_URGENTE`, an AttributeError. -/
def tipoParaDiasRestantes (dias_restantes : Int) : Except PyError TipoNotificacao :=
  if dias_restantes ≤ 0 then .ok .prazo_vencido
  else if dias_restantes = 0 then .ok .prazo_hoje
  else if dias_restantes ≤ 3 then .error (.attributeError "PRAZO_URGENTE")
  else .ok .prazo_vencendo

/-- notificacao_service.py lines 84-99: the `titulo` picked alongside the
tier (the `<= 3` branch never reaches its `titulo` assignment). -/
def tituloParaDiasRestantes (dias_restantes : Int) : Except PyError String :=
  if dias_restantes ≤ 0 then .ok "⚠️ PRAZO VENCIDO"
  else if dias_restantes = 0 then .ok "⚡ PRAZO PARA HOJE"
  else if dias_restantes ≤ 3 then .error (.attributeError "PRAZO_URGENTE")
  else .ok ("📅 Prazo em " ++ toString dias_restantes ++ " dias")

/-- models/notificacao.py lines 53-156: the `Notificacao` columns the embedded
operations read or write (relationship attributes and `action_url` elided). -/
structure Notificacao where
  id : Nat
  escritorio_id : Nat
  usuario_id : Nat
  tipo : TipoNotificacao
  titulo : String
  mensagem : String
  canal : CanalNotificacao
  status : StatusNotificacao
  agendada_para : Option Int
  enviada_em : Option Int
  lida_em : Option Int
  tentativas : Nat
  erro_envio : Option String
  prazo_id : Option Nat
  processo_id : Option Nat
  andamento_id : Option Nat
deriving DecidableEq, Repr

/-- models/notificacao.py lines 158-199: `PreferenciaNotificacao`.  The model
stores per-channel and per-type boolean columns plus `fcm_token`; it has no
`canais_ativos` or `tipos_ativos` column. -/
structure PreferenciaNotificacao where
  id : Nat
  escritorio_id : Nat
  usuario_id : Nat
  push_enabled : Bool
  email_enabled : Bool
  sms_enabled : Bool
  prazo_vencendo_enabled : Bool
  prazo_hoje_enabled : Bool
  prazo_vencido_enabled : Bool
  novo_andamento_enabled : Bool
  mudanca_fase_enabled : Bool
  fcm_token : Option String
deriving DecidableEq, Repr

/-- The Python expression `prefs.canais_ativos` (notificacao_service.py line
221): `PreferenciaNotificacao` defines no such attribute, so the lookup
raises AttributeError. -/
def PreferenciaNotificacao.canais_ativos (_ : PreferenciaNotificacao) :
    Except PyError (Option (List CanalNotificacao)) :=
  .error (.attributeError "canais_ativos")

/-- The Python expression `prefs.tipos_ativos` (notificacao_service.py lines
286-289): `PreferenciaNotificacao` defines no such attribute, so the lookup
raises AttributeError. -/
def PreferenciaNotificacao.tipos_ativos (_ : PreferenciaNotificacao) :
    Except PyError (Option (List TipoNotificacao)) :=
  .error (.attributeError "tipos_ativos")

/-- schemas/notificacao.py lines 18-37: `NotificacaoCreate` (pydantic).
`canal` defaults to IN_APP; the optional fields default to `None`. -/
structure NotificacaoCreate where
  tipo : TipoNotificacao
  titulo : String
  mensagem : String
  canal : CanalNotificacao
  usuario_id : Nat
  agendada_para : Option Int
  action_url : Option String
  prazo_id : Option Nat
  processo_id : Option Nat
  andamento_id : Option Nat
deriving DecidableEq, Repr

/-- A notification table together with the id the next insert receives. -/
structure NotifDB where
  rows : List Notificacao
  nextId : Nat
deriving DecidableEq, Repr

/-- repositories/base.py lines 117-131: `MultiTenantRepository.get_by_id`
specialised to `Notificacao` (a multi-tenant model): filter on id and
`escritorio_id`. -/
def NotificacaoRepository.get_by_id (rows : List Notificacao) (eid id : Nat) :
    Option Notificacao :=
  rows.find? (fun n => n.id == id && n.escritorio_id == eid)

/-- The keyword arguments the service passes to `self._repo.update` for a
notification (only `status` and `enviada_em` ever appear); `none` means the
argument was not passed. -/
structure NotifUpdate where
  status : Option StatusNotificacao
  enviada_em : Option Int
deriving DecidableEq, Repr

/-- repositories/base.py lines 63-79 applied to a `Notificacao`: each kwarg
whose value is not None is written with `setattr`; a `none` kwarg leaves the
column unchanged. -/
def applyNotifUpdate (n : Notificacao) (u : NotifUpdate) : Notificacao :=
  { n with
    status := match u.status with | some s => s | none => n.status
    enviada_em := match u.enviada_em with | some t => some t | none => n.enviada_em }

/-- repositories/base.py lines 63-79 (`BaseRepository.update`) through the
tenant-filtered `get_by_id` of `MultiTenantRepository`: if no row of this
tenant has the id, return None and change nothing; otherwise mutate that
row's non-None kwargs.  (The Python mutates the fetched ORM instance; with
unique ids that is the map below.) -/
def NotificacaoRepository.update (rows : List Notificacao) (eid id : Nat)
    (u : NotifUpdate) : Option Notificacao × List Notificacao :=
  match NotificacaoRepository.get_by_id rows eid id with
  | none => (none, rows)
  | some _ =>
    let rows' := rows.map fun n =>
      if n.id == id && n.escritorio_id == eid then applyNotifUpdate n u else n
    (NotificacaoRepository.get_by_id rows' eid id, rows')

/-- repositories/notificacao_repository.py lines 101-123
(`get_pendentes_envio`): status PENDENTE, optional channel filter,
`agendada_para` null or ≤ now, ordered by `created_at` (the ambient list
order), first `limit` rows.  The query has no `escritorio_id` filter. -/
def NotificacaoRepository.get_pendentes_envio (rows : List Notificacao)
    (now : Int) (canal : Option CanalNotificacao) (limit : Nat) :
    List Notificacao :=
  ((rows.filter fun n =>
      n.status == StatusNotificacao.pendente
      && (match canal with | none => true | some c => n.canal == c)
      && (match n.agendada_para with | none => true | some t => decide (t ≤ now))).take
    limit)

/-- repositories/notificacao_repository.py lines 63-82 (`marcar_como_lida`):
one bulk UPDATE setting status LIDA and `lida_em` on the rows whose id is in
the list, of this tenant and user; returns the rowcount.  There is no
condition on the current status. -/
def NotificacaoRepository.marcar_como_lida (rows : List Notificacao)
    (eid : Nat) (notificacao_ids : List Nat) (usuario_id : Nat) (now : Int) :
    Nat × List Notificacao :=
  let hit := fun (n : Notificacao) =>
    notificacao_ids.contains n.id && n.escritorio_id == eid
      && n.usuario_id == usuario_id
  ((rows.filter hit).length,
   rows.map fun n =>
     if hit n then { n with status := StatusNotificacao.lida, lida_em := some now }
     else n)

/-- repositories/notificacao_repository.py lines 84-99
(`marcar_todas_como_lidas`): one bulk UPDATE on this tenant and user's rows
whose status is not LIDA, setting status LIDA and `lida_em`. -/
def NotificacaoRepository.marcar_todas_como_lidas (rows : List Notificacao)
    (eid : Nat) (usuario_id : Nat) (now : Int) : Nat × List Notificacao :=
  let hit := fun (n : Notificacao) =>
    n.escritorio_id == eid && n.usuario_id == usuario_id
      && n.status != StatusNotificacao.lida
  ((rows.filter hit).length,
   rows.map fun n =>
     if hit n then { n with status := StatusNotificacao.lida, lida_em := some now }
     else n)

/-- repositories/notificacao_repository.py lines 190-200
(`PreferenciaNotificacaoRepository.get_by_usuario`): the preference row of
this tenant and user (`scalar_one_or_none`; stores in scope hold at most one
such row, so the first match is the row). -/
def PreferenciaNotificacaoRepository.get_by_usuario
    (prefsRows : List PreferenciaNotificacao) (eid usuario_id : Nat) :
    Option PreferenciaNotificacao :=
  prefsRows.find? fun p => p.escritorio_id == eid && p.usuario_id == usuario_id

/-- repositories/base.py lines 52-58 via `MultiTenantRepository.create`
(lines 150-155), specialised to `Notificacao`: a new row with the tenant id
injected and the column defaults of models/notificacao.py (status PENDENTE,
canal from the payload, tentativas 0, timestamps null). -/
def NotificacaoRepository.create (db : NotifDB) (eid usuario_id : Nat)
    (dados : NotificacaoCreate) : Notificacao × NotifDB :=
  let n : Notificacao :=
    { id := db.nextId
      escritorio_id := eid
      usuario_id := usuario_id
      tipo := dados.tipo
      titulo := dados.titulo
      mensagem := dados.mensagem
      canal := dados.canal
      status := StatusNotificacao.pendente
      agendada_para := dados.agendada_para
      enviada_em := none
      lida_em := none
      tentativas := 0
      erro_envio := none
      prazo_id := dados.prazo_id
      processo_id := dados.processo_id
      andamento_id := dados.andamento_id }
  (n, ⟨db.rows ++ [n], db.nextId + 1⟩)

/-- The constructor call `NotificacaoCreate(tipo=..., titulo=...,
mensagem=..., prioridade=..., dados_extras=...)` of notificacao_service.py
lines 101-110: the schema (schemas/notificacao.py lines 27-37) declares
`usuario_id : UUID` required with no default, and this call does not pass
it, so pydantic raises a ValidationError naming `usuario_id` and no
`NotificacaoCreate` value is ever produced (`prioridade` and `dados_extras`
are not schema fields either).  The arguments mirror the call site. -/
def notificacaoCreatePrazoCall (_ : TipoNotificacao) (_ _ : String) :
    Except PyError NotificacaoCreate :=
  .error (.validationError "usuario_id")

/-- notificacao_service.py lines 49-68 (`criar_notificacao`): would persist
the payload via `self._repo.create(usuario_id=usuario_id,
**dados.model_dump())`.  `model_dump()` of a `NotificacaoCreate` always
contains its own `usuario_id` field, so the call passes `usuario_id` twice
and Python raises TypeError before any insert reaches
`NotificacaoRepository.create`.  No lookup of any existing notification
happens either. -/
def NotificacaoService.criar_notificacao (_ : NotifDB) (_ : Nat)
    (_ : NotificacaoCreate) (_ : Nat) : Except PyError (Notificacao × NotifDB) :=
  .error (.typeError "usuario_id")

/-- notificacao_service.py lines 70-113 (`criar_notificacao_prazo`): picks
tier/title/priority from `dias_restantes` (raising on the missing
PRAZO_URGENTE member for 1-3 days), then constructs the `NotificacaoCreate`
- which raises pydantic's ValidationError, because the call omits the
required `usuario_id` - and would hand it to `criar_notificacao` (itself a
TypeError).  No existing notification is consulted anywhere, and no call
ever inserts or returns a record: every call raises. -/
def NotificacaoService.criar_notificacao_prazo (db : NotifDB)
    (eid usuario_id prazo_id : Nat) (processo_numero descricao_prazo : String)
    (data_fatal dias_restantes : Int) : Except PyError (Notificacao × NotifDB) := do
  let _ := prazo_id
  let _ := data_fatal
  let tipo ← tipoParaDiasRestantes dias_restantes
  let titulo ← tituloParaDiasRestantes dias_restantes
  let dados ← notificacaoCreatePrazoCall tipo titulo
    ("Processo " ++ processo_numero ++ ": " ++ descricao_prazo)
  NotificacaoService.criar_notificacao db eid dados usuario_id

/-- repositories/processo_repository.py lines 148-164
(`PrazoRepository.get_pendentes`): this tenant's PENDENTE prazos with
`data_fatal <= today + dias_futuros`, ordered by `data_fatal` (the stores
used below list prazos in `data_fatal` order, so the filter keeps that
order). -/
def PrazoRepository.get_pendentes (prazos : List Prazo) (eid : Nat)
    (today dias_futuros : Int) : List Prazo :=
  prazos.filter fun p =>
    p.escritorio_id == eid && p.status == StatusPrazo.pendente
      && decide (p.data_fatal ≤ today + dias_futuros)

/-- notificacao_service.py lines 344-383 (`verificar_prazos_e_notificar`):
the daily scan.  Lists this tenant's pending prazos inside the horizon and,
for each, reads `prazo.responsavel_id` - an attribute the `Prazo` model does
not define, so the first eligible prazo raises AttributeError - and would
call `criar_notificacao_prazo` for truthy values; an exception propagates
out of the scan (there is no try/except inside the loop).  `dias_antes` is
modelled as the integer horizon the code intends
(`settings.NOTIFICATION_DAYS_BEFORE_DEADLINE or 7`; the setting's actual
value is the list [7, 3, 1, 0], which `or` keeps and which
`timedelta(days=...)` would reject - the claims below do not depend on
this). -/
def verificar_prazos_e_notificar (prazos : List Prazo) (db : NotifDB)
    (eid : Nat) (today dias_antes : Int) : Except PyError (Nat × NotifDB) :=
  (PrazoRepository.get_pendentes prazos eid today dias_antes).foldlM
    (fun (acc : Nat × NotifDB) p => do
      let resp ← p.responsavel_id
      match resp with
      | none => .ok acc
      | some uid => do
        let (_, db') ← NotificacaoService.criar_notificacao_prazo acc.2 eid uid
          p.id p.processo_numero p.descricao p.data_fatal
          (p.dias_restantes today)
        .ok (acc.1 + 1, db'))
    (0, db)

/-- notificacao_service.py lines 280-289 (`_tipo_ativo`): reads
`prefs.tipos_ativos` (an AttributeError, see above) and would return `tipo in
prefs.tipos_ativos` or default to True. -/
def NotificacaoService.tipo_ativo (tipo : TipoNotificacao)
    (prefs : PreferenciaNotificacao) : Except PyError Bool := do
  let ta ← prefs.tipos_ativos
  match ta with
  | none => .ok true
  | some l => .ok (l.contains tipo)

/-- The outcome of one `_enviar_notificacao` call: the notification table
afterwards and the channel sends performed (each `_enviar_push` /
`_enviar_email` / `_enviar_sms` / `_enviar_in_app` call; those functions only
log, they never raise). -/
structure EnvioResult where
  rows : List Notificacao
  invocados : List CanalNotificacao
deriving DecidableEq, Repr

/-- notificacao_service.py lines 201-245 (`_enviar_notificacao`): fetch the
recipient's preferences; with none, send in-app and return (no status
update).  With preferences, `_tipo_ativo` is called first; if the type were
inactive the row would be marked ENVIADA with `enviada_em` and no channel
called, otherwise the `canais_ativos` loop would run (each send wrapped in
its own try/except) and the row would be marked ENVIADA afterwards.  Because
`_tipo_ativo` reads the nonexistent `prefs.tipos_ativos`, every call with a
preference row raises before reaching any of that.  Nothing in the function
reads the parent prazo. -/
def NotificacaoService.enviar_notificacao (rows : List Notificacao)
    (prefsRows : List PreferenciaNotificacao) (eid : Nat) (now : Int)
    (notificacao : Notificacao) : Except PyError EnvioResult := do
  match PreferenciaNotificacaoRepository.get_by_usuario prefsRows eid
      notificacao.usuario_id with
  | none => .ok ⟨rows, [CanalNotificacao.in_app]⟩
  | some prefs => do
    let ativo ← NotificacaoService.tipo_ativo notificacao.tipo prefs
    if !ativo then
      let (_, rows') := NotificacaoRepository.update rows eid notificacao.id
        { status := some StatusNotificacao.enviada, enviada_em := some now }
      .ok ⟨rows', []⟩
    else do
      let ca ← prefs.canais_ativos
      let canais := match ca with
        | none => [CanalNotificacao.in_app]
        | some [] => [CanalNotificacao.in_app]
        | some l => l
      let invocados := canais.foldl
        (fun acc c =>
          match c with
          | CanalNotificacao.push =>
            match prefs.fcm_token with
            | some _ => acc ++ [c]
            | none => acc
          | _ => acc ++ [c])
        []
      let (_, rows') := NotificacaoRepository.update rows eid notificacao.id
        { status := some StatusNotificacao.enviada, enviada_em := some now }
      .ok ⟨rows', invocados⟩

/-- The outcome of one `processar_pendentes` sweep: the returned count, the
notification table afterwards, and every channel send performed, tagged by
notification id. -/
structure SweepResult where
  count : Nat
  rows : List Notificacao
  invocados : List (Nat × CanalNotificacao)
deriving DecidableEq, Repr

/-- notificacao_service.py lines 180-193: the body of the `processar_pendentes`
loop for one pending notification - try `_enviar_notificacao`; on success
count it, on any exception update the row to status FALHA (through the
tenant-filtered repository update, passing only `status`). -/
def NotificacaoService.processarStep (prefsRows : List PreferenciaNotificacao)
    (eid : Nat) (now : Int) (acc : SweepResult) (n : Notificacao) : SweepResult :=
  match NotificacaoService.enviar_notificacao acc.rows prefsRows eid now n with
  | .ok r =>
    ⟨acc.count + 1, r.rows, acc.invocados ++ r.invocados.map (fun c => (n.id, c))⟩
  | .error _ =>
    let (_, rows') := NotificacaoRepository.update acc.rows eid n.id
      { status := some StatusNotificacao.falha, enviada_em := none }
    ⟨acc.count, rows', acc.invocados⟩

/-- notificacao_service.py lines 169-199 (`processar_pendentes`): fetch the
pending notifications once (via `get_pendentes_envio`, which ignores the
tenant), then run the loop body over them. -/
def NotificacaoService.processar_pendentes (rows : List Notificacao)
    (prefsRows : List PreferenciaNotificacao) (eid : Nat) (now : Int) :
    SweepResult :=
  (NotificacaoRepository.get_pendentes_envio rows now none 100).foldl
    (NotificacaoService.processarStep prefsRows eid now) ⟨0, rows, []⟩

/-- core/exceptions.py: the exceptions `cumprir_prazo` can raise
(`ResourceNotFoundError`, lines 86-95, and `BusinessRuleError`, lines
160-166). -/
inductive ServiceError
  | resourceNotFound (resource : String) (id : Nat)
  | businessRule (message : String)
deriving DecidableEq, Repr

/-- repositories/base.py lines 117-131: `MultiTenantRepository.get_by_id`
specialised to `Prazo`. -/
def PrazoRepository.get_by_id (prazos : List Prazo) (eid id : Nat) :
    Option Prazo :=
  prazos.find? fun p => p.id == id && p.escritorio_id == eid

/-- The keyword arguments `cumprir_prazo` passes to `self._prazo_repo.update`
(all non-None). -/
structure PrazoUpdateArgs where
  status : Option StatusPrazo
  data_cumprimento : Option Int
  cumprido_por_id : Option Nat
deriving DecidableEq, Repr

/-- repositories/base.py lines 63-79 applied to a `Prazo`: non-None kwargs
are written, `none` kwargs leave the column unchanged. -/
def applyPrazoUpdate (p : Prazo) (u : PrazoUpdateArgs) : Prazo :=
  { p with
    status := match u.status with | some s => s | none => p.status
    data_cumprimento :=
      match u.data_cumprimento with | some t => some t | none => p.data_cumprimento
    cumprido_por_id :=
      match u.cumprido_por_id with | some v => some v | none => p.cumprido_por_id }

/-- repositories/base.py lines 63-79 (`BaseRepository.update`) through the
tenant-filtered `get_by_id`, specialised to `Prazo`. -/
def PrazoRepository.update (prazos : List Prazo) (eid id : Nat)
    (u : PrazoUpdateArgs) : Option Prazo × List Prazo :=
  match PrazoRepository.get_by_id prazos eid id with
  | none => (none, prazos)
  | some _ =>
    let prazos' := prazos.map fun p =>
      if p.id == id && p.escritorio_id == eid then applyPrazoUpdate p u else p
    (PrazoRepository.get_by_id prazos' eid id, prazos')

/-- processo_service.py lines 245-271 (`cumprir_prazo`): 404 if the prazo is
not found in this tenant; `BusinessRuleError` if its status is anything but
PENDENTE (the message interpolates the current status value); otherwise set
status CUMPRIDO, `data_cumprimento` = now and `cumprido_por_id` = the acting
user.  An error raises before any mutation, leaving the store unchanged. -/
def ProcessoService.cumprir_prazo (prazos : List Prazo)
    (eid prazo_id usuario_id : Nat) (now : Int) :
    Except ServiceError (Prazo × List Prazo) :=
  match PrazoRepository.get_by_id prazos eid prazo_id with
  | none => .error (.resourceNotFound "Prazo" prazo_id)
  | some prazo =>
    if prazo.status ≠ StatusPrazo.pendente then
      .error (.businessRule ("Prazo já está " ++ prazo.status.value))
    else
      let (res, prazos') := PrazoRepository.update prazos eid prazo_id
        { status := some StatusPrazo.cumprido
          data_cumprimento := some now
          cumprido_por_id := some usuario_id }
      .ok (res.getD prazo, prazos')

/-- A generic entity row for `BaseRepository`: an id plus a Python attribute
map (column name to stored value, `none` = SQL NULL). -/
structure EntityRow (V : Type) where
  id : Nat
  attrs : String → Option V

/-- repositories/base.py lines 74-76: the kwargs loop of
`BaseRepository.update` - `for key, value in kwargs.items(): if value is not
None: setattr(instance, key, value)`.  Kwargs are (name, value) pairs in
iteration order; a `none` value is skipped. -/
def BaseRepository.applySetattrs {V : Type} (attrs : String → Option V)
    (kwargs : List (String × Option V)) : String → Option V :=
  kwargs.foldl
    (fun acc kv =>
      match kv.2 with
      | none => acc
      | some v => fun key => if key = kv.1 then some v else acc key)
    attrs

/-- repositories/base.py lines 63-79 (`BaseRepository.update`), generic form:
fetch by id (plain `get_by_id`, lines 30-35); if absent return None and
change nothing; otherwise apply the kwargs loop to that row only. -/
def BaseRepository.update {V : Type} (store : List (EntityRow V)) (id : Nat)
    (kwargs : List (String × Option V)) :
    Option (EntityRow V) × List (EntityRow V) :=
  match store.find? (fun r => r.id == id) with
  | none => (none, store)
  | some _ =>
    let store' := store.map fun r =>
      if r.id == id then ⟨r.id, BaseRepository.applySetattrs r.attrs kwargs⟩
      else r
    (store'.find? (fun r => r.id == id), store')

/-! Helper notions for the theorems below. -/

/-- The first row of a notification table carrying a given id (ids are the
primary key, so in well-formed stores it is the row with that id). -/
def rowById (rows : List Notificacao) (id : Nat) : Option Notificacao :=
  rows.find? fun n => n.id == id

/-- The live (still PENDENTE) notifications matching a dedup key of recipient,
tier and linked prazo. -/
def countLiveKey (rows : List Notificacao) (usuario : Nat)
    (tipo : TipoNotificacao) (pid : Option Nat) : Nat :=
  (rows.filter fun n =>
    n.status == StatusNotificacao.pendente && n.usuario_id == usuario
      && n.tipo == tipo && n.prazo_id == pid).length

/-! Concrete stores used to evaluate the code at specific inputs. -/

/-- A fulfilled prazo whose due date is still 5 days ahead. -/
def prazoSemana : Prazo :=
  { id := 3, escritorio_id := 1, processo_id := 7, processo_numero := "0001",
    descricao := "recurso", data_fatal := 5, status := StatusPrazo.cumprido,
    data_cumprimento := some 2, cumprido_por_id := some 9 }

/-- A prazo in progress (EM_ANDAMENTO). -/
def prazoAndamento : Prazo :=
  { id := 5, escritorio_id := 1, processo_id := 7, processo_numero := "0002",
    descricao := "defesa", data_fatal := 10, status := StatusPrazo.em_andamento,
    data_cumprimento := none, cumprido_por_id := none }

/-- An open (PENDENTE) prazo. -/
def prazoAberto : Prazo :=
  { prazoAndamento with id := 6, status := StatusPrazo.pendente }

/-- A cancelled prazo, the parent of `notifDoPrazo`. -/
def prazoCancelado : Prazo :=
  { id := 100, escritorio_id := 1, processo_id := 7,
    processo_numero := "0001", descricao := "contestar", data_fatal := 5,
    status := StatusPrazo.cancelado, data_cumprimento := none,
    cumprido_por_id := none }

/-- A pending notification of tenant 1, linked to prazo 100. -/
def notifBase : Notificacao :=
  { id := 1, escritorio_id := 1, usuario_id := 10,
    tipo := TipoNotificacao.prazo_vencendo, titulo := "t", mensagem := "m",
    canal := CanalNotificacao.in_app, status := StatusNotificacao.pendente,
    agendada_para := none, enviada_em := none, lida_em := none,
    tentativas := 0, erro_envio := none, prazo_id := some 100,
    processo_id := none, andamento_id := none }

/-- A pending notification of tenant 2. -/
def notifOutroTenant : Notificacao :=
  { notifBase with id := 2, escritorio_id := 2, usuario_id := 20 }

/-- A failed notification of tenant 1, same recipient as `notifBase`. -/
def notifFalhada : Notificacao :=
  { notifBase with id := 3, status := StatusNotificacao.falha }

/-- A pending notification of tenant 1 for recipient 30, linked to the
cancelled prazo 100. -/
def notifDoPrazo : Notificacao :=
  { notifBase with id := 4, usuario_id := 30 }

/-- A preference row for recipient 10 with the PRAZO_VENCENDO category
disabled (model columns; the defaults of models/notificacao.py otherwise). -/
def prefsVencendoOff : PreferenciaNotificacao :=
  { id := 1, escritorio_id := 1, usuario_id := 10, push_enabled := true,
    email_enabled := true, sms_enabled := false,
    prazo_vencendo_enabled := false, prazo_hoje_enabled := true,
    prazo_vencido_enabled := true, novo_andamento_enabled := true,
    mudanca_fase_enabled := true, fcm_token := none }

/-- A preference row for recipient 10 with every toggle at its default. -/
def prefsPadrao : PreferenciaNotificacao :=
  { prefsVencendoOff with prazo_vencendo_enabled := true }

/-- An existing live PRAZO_VENCIDO notification for recipient 10: the record
a dedup check for the (prazo 100, PRAZO_VENCIDO) trigger would find. -/
def notifGerada0 : Notificacao :=
  { id := 0, escritorio_id := 1, usuario_id := 10,
    tipo := TipoNotificacao.prazo_vencido, titulo := "⚠️ PRAZO VENCIDO",
    mensagem := "Processo 0001: contestar", canal := CanalNotificacao.in_app,
    status := StatusNotificacao.pendente, agendada_para := none,
    enviada_em := none, lida_em := none, tentativas := 0, erro_envio := none,
    prazo_id := none, processo_id := none, andamento_id := none }

/-- A generic attribute map for the `BaseRepository.update` theorems. -/
def attrsExemplo : String → Option Nat :=
  fun k => if k = "a" then some 1 else none

/-- Kwargs passing `a=None` (to be skipped) and `b=2`. -/
def kwargsExemplo : List (String × Option Nat) :=
  [("a", none), ("b", some 2)]

lemma find?_map_pres {α : Type} (f : α → α) (q : α → Bool) (l : List α)
    (hq : ∀ a, q (f a) = q a) : (l.map f).find? q = (l.find? q).map f := by
  induction l with
  | nil => rfl
  | cons a t ih =>
    simp only [List.map_cons, List.find?]
    rw [hq a]
    cases q a <;> simp [ih]

lemma rowById_of_mem {rows : List Notificacao} {n : Notificacao}
    (hmem : n ∈ rows) (hnd : (rows.map (fun m => m.id)).Nodup) :
    rowById rows n.id = some n := by
  induction rows with
  | nil => cases hmem
  | cons a t ih =>
    simp only [List.map_cons, List.nodup_cons] at hnd
    rcases List.mem_cons.mp hmem with rfl | hmem'
    · simp [rowById, List.find?]
    · have hne : (a.id == n.id) = false := by
        simp only [beq_eq_false_iff_ne, ne_eq]
        intro he
        exact hnd.1 (he ▸ List.mem_map_of_mem (fun m => m.id) hmem')
      simp only [rowById, List.find?, hne]
      exact ih hmem' hnd.2

lemma applyNotifUpdate_id (n : Notificacao) (u : NotifUpdate) :
    (applyNotifUpdate n u).id = n.id := rfl

lemma applyNotifUpdate_escritorio (n : Notificacao) (u : NotifUpdate) :
    (applyNotifUpdate n u).escritorio_id = n.escritorio_id := rfl

/-- The repository update, seen from the first row with the target id: if that
row is in the update's tenant it receives the kwargs, otherwise it is left
alone (the update either misses or only touches rows of the other tenant
behind it). -/
lemma notif_update_hit (rows : List Notificacao) (eid : Nat) (u : NotifUpdate)
    (n : Notificacao) (h : rowById rows n.id = some n) :
    rowById (NotificacaoRepository.update rows eid n.id u).2 n.id =
      some (if n.escritorio_id = eid then applyNotifUpdate n u else n) := by
  unfold NotificacaoRepository.update
  cases hg : NotificacaoRepository.get_by_id rows eid n.id with
  | none =>
    have hne : ¬ n.escritorio_id = eid := by
      intro he
      have hmem : n ∈ rows := List.mem_of_find?_eq_some h
      have := List.find?_eq_none.mp hg n hmem
      simp [he] at this
    simp [hne, h]
  | some m =>
    have hq : ∀ a : Notificacao,
        (((if a.id == n.id && a.escritorio_id == eid then applyNotifUpdate a u
           else a).id == n.id)) = (a.id == n.id) := by
      intro a
      by_cases hc : (a.id == n.id && a.escritorio_id == eid) = true
      · simp [hc, applyNotifUpdate_id]
      · simp [hc]
    simp only [rowById] at h ⊢
    rw [find?_map_pres _ _ _ hq, h]
    by_cases he : n.escritorio_id = eid
    · simp [he]
    · simp [he]

/-- Rows with a different id are invisible to the repository update. -/
lemma notif_update_frame (rows : List Notificacao) (eid id : Nat)
    (u : NotifUpdate) (tid : Nat) (hne : tid ≠ id) :
    rowById (NotificacaoRepository.update rows eid id u).2 tid =
      rowById rows tid := by
  unfold NotificacaoRepository.update
  cases hg : NotificacaoRepository.get_by_id rows eid id with
  | none => rfl
  | some m =>
    have hq : ∀ a : Notificacao,
        (((if a.id == id && a.escritorio_id == eid then applyNotifUpdate a u
           else a).id == tid)) = (a.id == tid) := by
      intro a
      by_cases hc : (a.id == id && a.escritorio_id == eid) = true
      · simp [hc, applyNotifUpdate_id]
      · simp [hc]
    simp only [rowById]
    rw [find?_map_pres _ _ _ hq]
    cases hr : rows.find? (fun a => a.id == tid) with
    | none => rfl
    | some r =>
      have hrid : r.id = tid := by simpa using List.find?_some hr
      have : (r.id == id && r.escritorio_id == eid) = false := by
        simp [hrid, hne]
      simp [this]
      intro h1 _
      omega

/-- What one `_enviar_notificacao` call amounts to: with no preference row the
in-app default path runs (one in-app send, no table change); with a
preference row the `prefs.tipos_ativos` read raises before anything else
happens. -/
lemma enviar_notificacao_eq (rows : List Notificacao)
    (prefsRows : List PreferenciaNotificacao) (eid : Nat) (now : Int)
    (n : Notificacao) :
    NotificacaoService.enviar_notificacao rows prefsRows eid now n =
      match PreferenciaNotificacaoRepository.get_by_usuario prefsRows eid
          n.usuario_id with
      | none => .ok ⟨rows, [CanalNotificacao.in_app]⟩
      | some _ => .error (.attributeError "tipos_ativos") := by
  unfold NotificacaoService.enviar_notificacao
  cases hp : PreferenciaNotificacaoRepository.get_by_usuario prefsRows eid
      n.usuario_id with
  | none => rfl
  | some prefs => rfl

/-- The table after one sweep-loop step: untouched when the recipient has no
preference row, otherwise the row is updated to FALHA through the
tenant-filtered repository update. -/
lemma processarStep_rows (prefsRows : List PreferenciaNotificacao)
    (eid : Nat) (now : Int) (acc : SweepResult) (n : Notificacao) :
    (NotificacaoService.processarStep prefsRows eid now acc n).rows =
      match PreferenciaNotificacaoRepository.get_by_usuario prefsRows eid
          n.usuario_id with
      | none => acc.rows
      | some _ =>
        (NotificacaoRepository.update acc.rows eid n.id
          { status := some StatusNotificacao.falha, enviada_em := none }).2 := by
  unfold NotificacaoService.processarStep
  rw [enviar_notificacao_eq]
  cases hp : PreferenciaNotificacaoRepository.get_by_usuario prefsRows eid
      n.usuario_id with
  | none => rfl
  | some prefs => rfl

/-- The channel sends of one sweep-loop step: one in-app send when the
recipient has no preference row, none otherwise. -/
lemma processarStep_invocados (prefsRows : List PreferenciaNotificacao)
    (eid : Nat) (now : Int) (acc : SweepResult) (n : Notificacao) :
    (NotificacaoService.processarStep prefsRows eid now acc n).invocados =
      acc.invocados ++
        (match PreferenciaNotificacaoRepository.get_by_usuario prefsRows eid
            n.usuario_id with
         | none => [(n.id, CanalNotificacao.in_app)]
         | some _ => []) := by
  unfold NotificacaoService.processarStep
  rw [enviar_notificacao_eq]
  cases hp : PreferenciaNotificacaoRepository.get_by_usuario prefsRows eid
      n.usuario_id with
  | none => rfl
  | some prefs => simp

/-- Rows whose id is hit by none of the loop's notifications come out of the
sweep loop unchanged. -/
lemma sweep_fold_frame (prefsRows : List PreferenciaNotificacao) (eid : Nat)
    (now : Int) :
    ∀ (L : List Notificacao) (acc : SweepResult) (tid : Nat),
      (∀ m ∈ L, m.id ≠ tid) →
      rowById ((L.foldl (NotificacaoService.processarStep prefsRows eid now)
        acc).rows) tid = rowById acc.rows tid := by
  intro L
  induction L with
  | nil => intro acc tid _; rfl
  | cons m t ih =>
    intro acc tid hno
    rw [List.foldl_cons, ih _ tid (fun x hx => hno x (List.mem_cons_of_mem m hx))]
    rw [processarStep_rows]
    cases hp : PreferenciaNotificacaoRepository.get_by_usuario prefsRows eid
        m.usuario_id with
    | none => rfl
    | some prefs =>
      exact notif_update_frame acc.rows eid m.id _ tid
        (fun h => hno m (List.mem_cons_self m t) h.symm)

/-- The fate of one selected notification across the whole sweep loop: if its
recipient has a preference row and it belongs to the sweeping tenant it ends
at status FALHA (everything else about it untouched); otherwise it comes out
exactly as it went in. -/
lemma sweep_fold_hit (prefsRows : List PreferenciaNotificacao) (eid : Nat)
    (now : Int) :
    ∀ (L : List Notificacao) (acc : SweepResult) (n : Notificacao),
      (L.map (fun m => m.id)).Nodup → n ∈ L →
      rowById acc.rows n.id = some n →
      rowById ((L.foldl (NotificacaoService.processarStep prefsRows eid now)
        acc).rows) n.id =
        some (if (PreferenciaNotificacaoRepository.get_by_usuario prefsRows
                    eid n.usuario_id).isSome ∧ n.escritorio_id = eid
              then { n with status := StatusNotificacao.falha } else n) := by
  intro L
  induction L with
  | nil => intro acc n _ hmem; cases hmem
  | cons m t ih =>
    intro acc n hnd hmem hrow
    simp only [List.map_cons, List.nodup_cons] at hnd
    rw [List.foldl_cons]
    rcases List.mem_cons.mp hmem with rfl | hmem'
    · have hfree : ∀ x ∈ t, x.id ≠ n.id := by
        intro x hx he
        exact hnd.1 (he ▸ List.mem_map_of_mem (fun q => q.id) hx)
      rw [sweep_fold_frame prefsRows eid now t _ n.id hfree]
      rw [processarStep_rows]
      cases hp : PreferenciaNotificacaoRepository.get_by_usuario prefsRows eid
          n.usuario_id with
      | none => simpa [hp] using hrow
      | some prefs =>
        rw [notif_update_hit acc.rows eid _ n hrow]
        have happ : applyNotifUpdate n
            { status := some StatusNotificacao.falha, enviada_em := none } =
            { n with status := StatusNotificacao.falha } := rfl
        by_cases he : n.escritorio_id = eid
        · rw [happ]
          simp [hp, he]
        · simp [hp, he]
    · have hne : m.id ≠ n.id := by
        intro he
        exact hnd.1 (he ▸ List.mem_map_of_mem (fun q => q.id) hmem')
      have hrow' : rowById ((NotificacaoService.processarStep prefsRows eid now
          acc m).rows) n.id = some n := by
        rw [processarStep_rows]
        cases hp : PreferenciaNotificacaoRepository.get_by_usuario prefsRows eid
            m.usuario_id with
        | none => exact hrow
        | some prefs =>
          rw [notif_update_frame acc.rows eid m.id _ n.id (fun h => hne h.symm)]
          exact hrow
      exact ih _ n hnd.2 hmem' hrow'

/-- The complete send log of the sweep loop: one in-app send per selected
notification whose recipient has no preference row, in selection order. -/
lemma sweep_fold_invocados (prefsRows : List PreferenciaNotificacao)
    (eid : Nat) (now : Int) :
    ∀ (L : List Notificacao) (acc : SweepResult),
      (L.foldl (NotificacaoService.processarStep prefsRows eid now)
        acc).invocados =
        acc.invocados ++
          (L.filter (fun m => (PreferenciaNotificacaoRepository.get_by_usuario
            prefsRows eid m.usuario_id).isNone)).map
            (fun m => (m.id, CanalNotificacao.in_app)) := by
  intro L
  induction L with
  | nil => intro acc; simp
  | cons m t ih =>
    intro acc
    rw [List.foldl_cons, ih]
    have hstep := processarStep_invocados prefsRows eid now acc m
    cases hp : PreferenciaNotificacaoRepository.get_by_usuario prefsRows eid
        m.usuario_id with
    | none =>
      rw [hp] at hstep
      simp [hstep, List.filter_cons, hp]
    | some prefs =>
      rw [hp] at hstep
      simp [hstep, List.filter_cons, hp]

/-- A notification selected by `get_pendentes_envio` is a row of the table. -/
lemma mem_rows_of_sel {rows : List Notificacao} {now : Int}
    {canal : Option CanalNotificacao} {lim : Nat} {n : Notificacao}
    (h : n ∈ NotificacaoRepository.get_pendentes_envio rows now canal lim) :
    n ∈ rows := by
  unfold NotificacaoRepository.get_pendentes_envio at h
  exact List.mem_of_mem_filter (List.mem_of_mem_take h)

/-- A notification selected by `get_pendentes_envio` has status PENDENTE. -/
lemma status_of_sel {rows : List Notificacao} {now : Int}
    {canal : Option CanalNotificacao} {lim : Nat} {n : Notificacao}
    (h : n ∈ NotificacaoRepository.get_pendentes_envio rows now canal lim) :
    n.status = StatusNotificacao.pendente := by
  unfold NotificacaoRepository.get_pendentes_envio at h
  have := List.of_mem_filter (List.mem_of_mem_take h)
  simp only [Bool.and_eq_true, beq_iff_eq] at this
  exact this.1.1

/-- The selection inherits distinct ids from the table. -/
lemma sel_ids_nodup {rows : List Notificacao} {now : Int}
    {canal : Option CanalNotificacao} {lim : Nat}
    (hnd : (rows.map (fun m => m.id)).Nodup) :
    ((NotificacaoRepository.get_pendentes_envio rows now canal lim).map
      (fun m => m.id)).Nodup := by
  unfold NotificacaoRepository.get_pendentes_envio
  refine List.Nodup.sublist (List.Sublist.map _ ?_) hnd
  exact List.Sublist.trans (List.take_sublist _ _) (List.filter_sublist _)

lemma applySetattrs_skip {V : Type} :
    ∀ (kwargs : List (String × Option V)) (attrs : String → Option V)
      (key : String),
      (∀ p ∈ kwargs, p.1 = key → p.2 = none) →
      BaseRepository.applySetattrs attrs kwargs key = attrs key := by
  intro kwargs
  induction kwargs with
  | nil => intro attrs key _; rfl
  | cons kv rest ih =>
    obtain ⟨k, v⟩ := kv
    intro attrs key h
    cases v with
    | none =>
      exact ih attrs key fun p hp he => h p (List.mem_cons_of_mem _ hp) he
    | some v =>
      have hk : k ≠ key := by
        intro he
        have := h (k, some v) (List.mem_cons_self _ _) he
        simp at this
      have hrec := ih (fun key' => if key' = k then some v else attrs key') key
        (fun p hp he => h p (List.mem_cons_of_mem _ hp) he)
      have hstep : BaseRepository.applySetattrs attrs ((k, some v) :: rest) key =
          BaseRepository.applySetattrs
            (fun key' => if key' = k then some v else attrs key') rest key := rfl
      rw [hstep, hrec]
      simp only [ite_eq_right_iff]
      intro he
      exact absurd he.symm hk

lemma applySetattrs_not_none {V : Type} :
    ∀ (kwargs : List (String × Option V)) (attrs : String → Option V)
      (key : String),
      BaseRepository.applySetattrs attrs kwargs key = none → attrs key = none := by
  intro kwargs
  induction kwargs with
  | nil => intro attrs key h; exact h
  | cons kv rest ih =>
    obtain ⟨k, v⟩ := kv
    intro attrs key h
    cases v with
    | none => exact ih attrs key h
    | some v =>
      have hrec := ih (fun key' => if key' = k then some v else attrs key') key h
      by_cases hk : key = k
      · simp [hk] at hrec
      · simpa [hk] using hrec

/-- C10: `BaseRepository.update` skips every kwarg whose supplied value is
None (the column keeps its previous value), leaves every column not named in
the call unchanged, never turns a non-null column into null, and leaves
every row with a different id untouched. -/
theorem base_update_none_skip_frame :
    (∀ {V : Type} (attrs : String → Option V)
      (kwargs : List (String × Option V)) (key : String),
      (∀ p ∈ kwargs, p.1 = key → p.2 = none) →
      BaseRepository.applySetattrs attrs kwargs key = attrs key) ∧
    (∀ {V : Type} (attrs : String → Option V)
      (kwargs : List (String × Option V)) (key : String),
      BaseRepository.applySetattrs attrs kwargs key = none → attrs key = none) ∧
    (∀ {V : Type} (store : List (EntityRow V)) (id : Nat)
      (kwargs : List (String × Option V)) (r : EntityRow V),
      r ∈ store → r.id ≠ id → r ∈ (BaseRepository.update store id kwargs).2) := by
  refine ⟨?_, ?_, ?_⟩
  · intro V attrs kwargs key h
    exact applySetattrs_skip kwargs attrs key h
  · intro V attrs kwargs key h
    exact applySetattrs_not_none kwargs attrs key h
  · intro V store id kwargs r hmem hne
    unfold BaseRepository.update
    cases hfind : store.find? (fun x => x.id == id) with
    | none => exact hmem
    | some m =>
      have hf : (if (r.id == id) = true
          then (⟨r.id, BaseRepository.applySetattrs r.attrs kwargs⟩ : EntityRow V)
          else r) = r := by simp [hne]
      exact hf ▸ List.mem_map_of_mem _ hmem

/-- Witness for the C10 theorem: the kwarg `a=None` of `kwargsExemplo` is
skipped, so the stored `a` keeps its value. -/
theorem base_update_none_skip_frame_witness :
    BaseRepository.applySetattrs attrsExemplo kwargsExemplo "a" =
      attrsExemplo "a" :=
  base_update_none_skip_frame.1 attrsExemplo kwargsExemplo "a" (by decide)

/-- C9 counterexample: `marcar_como_lida` has no condition on the current
status, so a PENDENTE and a FALHA notification of the recipient are both set
to LIDA (and `marcar_todas_como_lidas` does the same); the claim expected
both to be left unchanged. -/
theorem marcar_lida_pendente_falha_cex :
    notifBase.status = StatusNotificacao.pendente ∧
    notifFalhada.status = StatusNotificacao.falha ∧
    NotificacaoRepository.marcar_como_lida [notifBase, notifFalhada] 1 [1, 3]
        10 7 =
      (2, [{ notifBase with status := StatusNotificacao.lida, lida_em := some 7 },
           { notifFalhada with status := StatusNotificacao.lida, lida_em := some 7 }]) ∧
    NotificacaoRepository.marcar_todas_como_lidas [notifBase, notifFalhada] 1
        10 7 =
      (2, [{ notifBase with status := StatusNotificacao.lida, lida_em := some 7 },
           { notifFalhada with status := StatusNotificacao.lida, lida_em := some 7 }]) := by
  refine ⟨rfl, rfl, rfl, rfl⟩

/-- C9 amended: the mark-as-read operations set status LIDA on every matching
row regardless of its current status - a matching PENDENTE or FALHA
notification is rewritten to LIDA (READ is reachable from any status through
them), rather than left unchanged. -/
theorem marcar_lida_sets_any_status (rows : List Notificacao) (eid : Nat)
    (ids : List Nat) (uid : Nat) (now : Int) (n : Notificacao)
    (hmem : n ∈ rows) :
    ((ids.contains n.id ∧ n.escritorio_id = eid ∧ n.usuario_id = uid) →
      { n with status := StatusNotificacao.lida, lida_em := some now } ∈
        (NotificacaoRepository.marcar_como_lida rows eid ids uid now).2) ∧
    ((n.escritorio_id = eid ∧ n.usuario_id = uid ∧
        n.status ≠ StatusNotificacao.lida) →
      { n with status := StatusNotificacao.lida, lida_em := some now } ∈
        (NotificacaoRepository.marcar_todas_como_lidas rows eid uid now).2) := by
  constructor
  · rintro ⟨h1, h2, h3⟩
    have hf : (if (ids.contains n.id && n.escritorio_id == eid
          && n.usuario_id == uid) = true
        then { n with status := StatusNotificacao.lida, lida_em := some now }
        else n) =
        { n with status := StatusNotificacao.lida, lida_em := some now } := by
      have h1' : n.id ∈ ids := by simpa using h1
      simp [h1', h2, h3]
    exact hf ▸ List.mem_map_of_mem _ hmem
  · rintro ⟨h1, h2, h3⟩
    have hf : (if (n.escritorio_id == eid && n.usuario_id == uid
          && n.status != StatusNotificacao.lida) = true
        then { n with status := StatusNotificacao.lida, lida_em := some now }
        else n) =
        { n with status := StatusNotificacao.lida, lida_em := some now } := by
      simp [h1, h2, h3]
    exact hf ▸ List.mem_map_of_mem _ hmem

/-- Witness for the C9 amended theorem: the PENDENTE `notifBase` is rewritten
to LIDA by `marcar_como_lida`. -/
theorem marcar_lida_sets_any_status_witness :
    { notifBase with status := StatusNotificacao.lida, lida_em := some 7 } ∈
      (NotificacaoRepository.marcar_como_lida [notifBase, notifFalhada] 1
        [1, 3] 10 7).2 :=
  (marcar_lida_sets_any_status [notifBase, notifFalhada] 1 [1, 3] 10 7
    notifBase (by decide)).1 ⟨by decide, rfl, rfl⟩

/-- C5: at `dias_restantes = 0` (due today) the tier chain assigns
PRAZO_VENCIDO, not PRAZO_HOJE - the `<= 0` test captures 0 before the dead
`== 0` branch ever runs, although that branch (and the enum comments "No
dia" / "Após vencer") show PRAZO_HOJE was meant for 0 and PRAZO_VENCIDO only
for negative values. -/
theorem tier_at_zero_is_vencido :
    tipoParaDiasRestantes 0 = Except.ok TipoNotificacao.prazo_vencido ∧
    tipoParaDiasRestantes 0 ≠ Except.ok TipoNotificacao.prazo_hoje ∧
    tipoParaDiasRestantes (-1) = Except.ok TipoNotificacao.prazo_vencido := by
  refine ⟨rfl, fun h => TipoNotificacao.noConfusion (Except.ok.inj h), rfl⟩

/-- C8 counterexample: for a non-PENDENTE prazo `dias_restantes` is 0, not
`data_fatal - today`: the fulfilled `prazoSemana` is due in 5 days but reads
0. -/
theorem dias_restantes_cex :
    prazoSemana.dias_restantes 0 = 0 ∧
    prazoSemana.data_fatal - 0 = 5 ∧
    prazoSemana.dias_restantes 0 ≠ prazoSemana.data_fatal - 0 := by
  refine ⟨rfl, rfl, by decide⟩

/-- C8 amended: `dias_restantes` equals `data_fatal - today` only while the
status is PENDENTE and is 0 otherwise; `is_urgente` holds iff
`0 < dias_restantes ≤ 3`; `is_vencido` holds iff `dias_restantes < 0` and the
status is PENDENTE. -/
theorem dias_restantes_spec (p : Prazo) (today : Int) :
    p.dias_restantes today =
      (if p.status = StatusPrazo.pendente then p.data_fatal - today else 0) ∧
    (p.is_urgente today = true ↔
      0 < p.dias_restantes today ∧ p.dias_restantes today ≤ 3) ∧
    (p.is_vencido today = true ↔
      p.dias_restantes today < 0 ∧ p.status = StatusPrazo.pendente) := by
  refine ⟨?_, ?_, ?_⟩
  · unfold Prazo.dias_restantes
    by_cases h : p.status = StatusPrazo.pendente <;> simp [h]
  · unfold Prazo.is_urgente
    simp
  · unfold Prazo.is_vencido
    simp

/-- `applyPrazoUpdate` never touches the id or tenant columns. -/
lemma applyPrazoUpdate_keys (p : Prazo) (u : PrazoUpdateArgs) :
    (applyPrazoUpdate p u).id = p.id ∧
    (applyPrazoUpdate p u).escritorio_id = p.escritorio_id :=
  ⟨rfl, rfl⟩

/-- After the repository update maps the store, the tenant-filtered lookup
returns the updated row. -/
lemma prazo_get_by_id_map_update {prazos : List Prazo} {eid pid : Nat}
    {p : Prazo} (u : PrazoUpdateArgs)
    (hg : PrazoRepository.get_by_id prazos eid pid = some p) :
    PrazoRepository.get_by_id
      (prazos.map fun q =>
        if q.id == pid && q.escritorio_id == eid then applyPrazoUpdate q u
        else q) eid pid = some (applyPrazoUpdate p u) := by
  unfold PrazoRepository.get_by_id at hg ⊢
  have hq : ∀ a : Prazo,
      (((if a.id == pid && a.escritorio_id == eid then applyPrazoUpdate a u
         else a).id == pid &&
        (if a.id == pid && a.escritorio_id == eid then applyPrazoUpdate a u
         else a).escritorio_id == eid)) =
        (a.id == pid && a.escritorio_id == eid) := by
    intro a
    by_cases hc : (a.id == pid && a.escritorio_id == eid) = true
    · simp [hc, applyPrazoUpdate]
    · simp [hc]
  rw [find?_map_pres _ _ _ hq, hg]
  have hcond : (p.id == pid && p.escritorio_id == eid) = true := by
    simpa using List.find?_some hg
  show some (if (p.id == pid && p.escritorio_id == eid) = true
      then applyPrazoUpdate p u else p) = some (applyPrazoUpdate p u)
  rw [if_pos hcond]

/-- The repository update on a row found by the tenant-filtered lookup. -/
lemma prazo_update_found {prazos : List Prazo} {eid pid : Nat} {p : Prazo}
    (u : PrazoUpdateArgs)
    (hg : PrazoRepository.get_by_id prazos eid pid = some p) :
    PrazoRepository.update prazos eid pid u =
      (some (applyPrazoUpdate p u),
       prazos.map fun q =>
         if q.id == pid && q.escritorio_id == eid then applyPrazoUpdate q u
         else q) := by
  simp only [PrazoRepository.update, hg, prazo_get_by_id_map_update u hg]

/-- C7 counterexample: fulfilling an IN_PROGRESS (EM_ANDAMENTO) prazo fails:
`cumprir_prazo` accepts only PENDENTE, whereas the claim says PENDING and
IN_PROGRESS both succeed.  (The error is the service's `BusinessRuleError`,
raised before any mutation.) -/
theorem cumprir_em_andamento_cex :
    prazoAndamento.status = StatusPrazo.em_andamento ∧
    ProcessoService.cumprir_prazo [prazoAndamento] 1 5 9 100 =
      Except.error (ServiceError.businessRule "Prazo já está em_andamento") := by
  refine ⟨rfl, rfl⟩

/-- C7 amended: `cumprir_prazo` succeeds exactly when the prazo's status is
PENDENTE, setting CUMPRIDO and recording the acting user and timestamp; any
other status - EM_ANDAMENTO included - fails with a BusinessRuleError naming
the current status, raised before any mutation; in particular a second
fulfill call on the same prazo fails that way. -/
theorem cumprir_prazo_spec (prazos : List Prazo) (eid pid uid uid2 : Nat)
    (now now2 : Int) (p : Prazo)
    (hg : PrazoRepository.get_by_id prazos eid pid = some p) :
    (p.status = StatusPrazo.pendente →
      ProcessoService.cumprir_prazo prazos eid pid uid now =
        Except.ok
          ({ p with
              status := StatusPrazo.cumprido
              data_cumprimento := some now
              cumprido_por_id := some uid },
           (PrazoRepository.update prazos eid pid
             ⟨some StatusPrazo.cumprido, some now, some uid⟩).2) ∧
      ProcessoService.cumprir_prazo
          (PrazoRepository.update prazos eid pid
            ⟨some StatusPrazo.cumprido, some now, some uid⟩).2 eid pid uid2
          now2 =
        Except.error (ServiceError.businessRule "Prazo já está cumprido")) ∧
    (p.status ≠ StatusPrazo.pendente →
      ProcessoService.cumprir_prazo prazos eid pid uid now =
        Except.error
          (ServiceError.businessRule ("Prazo já está " ++ p.status.value))) := by
  have hupd := prazo_update_found
    ⟨some StatusPrazo.cumprido, some now, some uid⟩ hg
  constructor
  · intro hpend
    constructor
    · simp only [ProcessoService.cumprir_prazo, hg, hupd, hpend]
      simp [applyPrazoUpdate]
    · have hsnd : (PrazoRepository.update prazos eid pid
          ⟨some StatusPrazo.cumprido, some now, some uid⟩).2 =
          prazos.map fun q =>
            if q.id == pid && q.escritorio_id == eid
            then applyPrazoUpdate q
              ⟨some StatusPrazo.cumprido, some now, some uid⟩
            else q := by rw [hupd]
      simp only [ProcessoService.cumprir_prazo, hsnd,
        prazo_get_by_id_map_update ⟨some StatusPrazo.cumprido, some now, some uid⟩ hg]
      simp [applyPrazoUpdate, StatusPrazo.value]
  · intro hne
    simp only [ProcessoService.cumprir_prazo, hg]
    rw [if_pos hne]

/-- Witness for the C7 amended theorem: fulfilling the PENDENTE `prazoAberto`
succeeds once and fails on the second call. -/
theorem cumprir_prazo_spec_witness :
    ProcessoService.cumprir_prazo [prazoAberto] 1 6 9 100 =
      Except.ok
        ({ prazoAberto with
            status := StatusPrazo.cumprido
            data_cumprimento := some 100
            cumprido_por_id := some 9 },
         (PrazoRepository.update [prazoAberto] 1 6
           ⟨some StatusPrazo.cumprido, some 100, some 9⟩).2) ∧
    ProcessoService.cumprir_prazo
        (PrazoRepository.update [prazoAberto] 1 6
          ⟨some StatusPrazo.cumprido, some 100, some 9⟩).2 1 6 8 200 =
      Except.error (ServiceError.businessRule "Prazo já está cumprido") :=
  (cumprir_prazo_spec [prazoAberto] 1 6 9 8 100 200 prazoAberto rfl).1 rfl

/-- C1 counterexample: with the live `notifGerada0` already in the table as
the (prazo 100, PRAZO_VENCIDO) dedup key's existing record, the identical
daily trigger does not return that existing record: `criar_notificacao_prazo`
raises pydantic's ValidationError (its `NotificacaoCreate` construction omits
the schema's required `usuario_id`), so the claimed check-and-return-existing
behaviour does not happen. -/
theorem criar_prazo_dedup_cex :
    countLiveKey [notifGerada0] 10 TipoNotificacao.prazo_vencido none = 1 ∧
    NotificacaoService.criar_notificacao_prazo ⟨[notifGerada0], 1⟩ 1 10 100
        "0001" "contestar" 0 0 =
      Except.error (PyError.validationError "usuario_id") ∧
    NotificacaoService.criar_notificacao_prazo ⟨[notifGerada0], 1⟩ 1 10 100
        "0001" "contestar" 0 0 ≠
      Except.ok (notifGerada0, ⟨[notifGerada0], 1⟩) := by
  refine ⟨rfl, rfl, fun h => Except.noConfusion h⟩

/-- C1 amended: generation never checks for an existing live notification
and in fact never inserts or returns one.  Every `criar_notificacao_prazo`
call raises - the AttributeError on the missing PRAZO_URGENTE enum member
for 1-3 days remaining, pydantic's ValidationError on the missing required
`usuario_id` otherwise - and a daily scan that returns at all returns count
0 with the notification table unchanged, so "at most one live notification
per key" holds only vacuously, through no dedup check. -/
theorem criar_prazo_never_inserts (db : NotifDB) (eid uid pid : Nat)
    (pn d : String) (df dr : Int) (prazos : List Prazo)
    (today dias_antes : Int) (res : Nat × NotifDB) :
    (0 < dr ∧ dr ≤ 3 →
      NotificacaoService.criar_notificacao_prazo db eid uid pid pn d df dr =
        Except.error (PyError.attributeError "PRAZO_URGENTE")) ∧
    (¬(0 < dr ∧ dr ≤ 3) →
      NotificacaoService.criar_notificacao_prazo db eid uid pid pn d df dr =
        Except.error (PyError.validationError "usuario_id")) ∧
    (verificar_prazos_e_notificar prazos db eid today dias_antes =
        Except.ok res →
      res.1 = 0 ∧ res.2 = db) := by
  refine ⟨?_, ?_, ?_⟩
  · rintro ⟨ha, hb⟩
    have h1 : ¬ dr ≤ 0 := by omega
    have h2 : ¬ dr = 0 := by omega
    unfold NotificacaoService.criar_notificacao_prazo tipoParaDiasRestantes
      tituloParaDiasRestantes
    simp only [if_neg h1, if_neg h2, if_pos hb]
    rfl
  · intro hc
    by_cases h1 : dr ≤ 0
    · unfold NotificacaoService.criar_notificacao_prazo tipoParaDiasRestantes
        tituloParaDiasRestantes
      simp only [if_pos h1]
      rfl
    · have h2 : ¬ dr = 0 := by omega
      have h3 : ¬ dr ≤ 3 := by
        intro h3
        exact hc ⟨by omega, h3⟩
      unfold NotificacaoService.criar_notificacao_prazo tipoParaDiasRestantes
        tituloParaDiasRestantes
      simp only [if_neg h1, if_neg h2, if_neg h3]
      rfl
  · intro h
    cases hl : PrazoRepository.get_pendentes prazos eid today dias_antes with
    | nil =>
      unfold verificar_prazos_e_notificar at h
      rw [hl] at h
      have := Except.ok.inj h
      rw [← this]
      exact ⟨rfl, rfl⟩
    | cons p l =>
      unfold verificar_prazos_e_notificar at h
      rw [hl] at h
      exact Except.noConfusion h

/-- Witness for the C1 amended theorem: the due-today trigger at the store
holding the existing key row raises the ValidationError, and a scan over a
store with no eligible prazo (only the cancelled prazo 100) returns 0 with
the table unchanged. -/
theorem criar_prazo_never_inserts_witness :
    NotificacaoService.criar_notificacao_prazo ⟨[notifGerada0], 1⟩ 1 10 100
        "0001" "contestar" 0 0 =
      Except.error (PyError.validationError "usuario_id") ∧
    ((0 : Nat), (⟨[notifGerada0], 1⟩ : NotifDB)).1 = 0 ∧
    ((0 : Nat), (⟨[notifGerada0], 1⟩ : NotifDB)).2 = ⟨[notifGerada0], 1⟩ :=
  have h := criar_prazo_never_inserts ⟨[notifGerada0], 1⟩ 1 10 100 "0001"
    "contestar" 0 0 [prazoCancelado] 0 7 (0, ⟨[notifGerada0], 1⟩)
  ⟨h.2.1 (by decide), (h.2.2 rfl).1, (h.2.2 rfl).2⟩

/-- C2 counterexample: the pending `notifBase` (attempt count 0, recipient
with a stored preference row, channel toggles at their defaults) is marked
FALHA by the very first sweep although its attempt count 0 is far below 5,
instead of staying PENDENTE for a later retry; nothing was delivered, no
channel was invoked and `tentativas` was not incremented. -/
theorem sweep_immediate_falha_cex :
    notifBase.tentativas = 0 ∧
    NotificacaoService.processar_pendentes [notifBase] [prefsPadrao] 1 50 =
      ⟨0, [{ notifBase with status := StatusNotificacao.falha }], []⟩ := by
  refine ⟨rfl, rfl⟩

/-- C2 amended: a claimed notification of the sweeping tenant whose dispatch
attempt fails - which with a stored preference row is every attempt, via the
`prefs.tipos_ativos` AttributeError - is marked FALHA immediately on that
sweep regardless of its attempt count; `tentativas` is not incremented, no
last error is recorded, it is never marked ENVIADA, and once FALHA it is not
selected by any later sweep, so no further attempts occur. -/
theorem sweep_failure_path_spec (rows : List Notificacao)
    (prefsRows : List PreferenciaNotificacao) (eid : Nat) (now now2 : Int)
    (lim : Nat) (n : Notificacao)
    (hnd : (rows.map (fun m => m.id)).Nodup)
    (hsel : n ∈ NotificacaoRepository.get_pendentes_envio rows now none 100)
    (heid : n.escritorio_id = eid)
    (hpref : (PreferenciaNotificacaoRepository.get_by_usuario prefsRows eid
      n.usuario_id).isSome = true) :
    rowById (NotificacaoService.processar_pendentes rows prefsRows eid
        now).rows n.id =
      some { n with status := StatusNotificacao.falha } ∧
    ({ n with status := StatusNotificacao.falha } : Notificacao).tentativas =
      n.tentativas ∧
    ({ n with status := StatusNotificacao.falha } : Notificacao).erro_envio =
      n.erro_envio ∧
    { n with status := StatusNotificacao.falha } ∉
      NotificacaoRepository.get_pendentes_envio
        (NotificacaoService.processar_pendentes rows prefsRows eid now).rows
        now2 none lim := by
  have hmem : n ∈ rows := mem_rows_of_sel hsel
  have hrow : rowById rows n.id = some n := rowById_of_mem hmem hnd
  have hnd' : ((NotificacaoRepository.get_pendentes_envio rows now none
      100).map (fun m => m.id)).Nodup := sel_ids_nodup hnd
  have hfold := sweep_fold_hit prefsRows eid now
    (NotificacaoRepository.get_pendentes_envio rows now none 100)
    ⟨0, rows, []⟩ n hnd' hsel hrow
  have hproc : NotificacaoService.processar_pendentes rows prefsRows eid now =
      (NotificacaoRepository.get_pendentes_envio rows now none 100).foldl
        (NotificacaoService.processarStep prefsRows eid now) ⟨0, rows, []⟩ :=
    rfl
  refine ⟨?_, rfl, rfl, ?_⟩
  · rw [hproc, hfold]
    simp [hpref, heid]
  · intro hmem2
    exact absurd (status_of_sel hmem2)
      (by decide : ¬(StatusNotificacao.falha = StatusNotificacao.pendente))

/-- Witness for the C2 amended theorem at the one-row store. -/
theorem sweep_failure_path_spec_witness :
    rowById (NotificacaoService.processar_pendentes [notifBase] [prefsPadrao]
        1 50).rows notifBase.id =
      some { notifBase with status := StatusNotificacao.falha } ∧
    ({ notifBase with status := StatusNotificacao.falha } : Notificacao).tentativas =
      notifBase.tentativas ∧
    ({ notifBase with status := StatusNotificacao.falha } : Notificacao).erro_envio =
      notifBase.erro_envio ∧
    { notifBase with status := StatusNotificacao.falha } ∉
      NotificacaoRepository.get_pendentes_envio
        (NotificacaoService.processar_pendentes [notifBase] [prefsPadrao] 1
          50).rows 60 none 100 :=
  sweep_failure_path_spec [notifBase] [prefsPadrao] 1 50 60 100 notifBase
    (by decide) (by decide) rfl (by decide)

/-- C3 counterexample: `notifDoPrazo` is PENDENTE and linked to the CANCELLED
prazo 100, yet the sweep (its recipient has no preference row) invokes the
in-app channel for it, counts it as sent and leaves it PENDENTE: it is not
marked FALHA with reason "superseded" and no re-check of the parent prazo
happens. -/
theorem sweep_superseded_cex :
    prazoCancelado.status = StatusPrazo.cancelado ∧
    notifDoPrazo.prazo_id = some prazoCancelado.id ∧
    NotificacaoService.processar_pendentes [notifDoPrazo] [] 1 50 =
      ⟨1, [notifDoPrazo], [(4, CanalNotificacao.in_app)]⟩ := by
  refine ⟨rfl, rfl, rfl⟩

/-- C3 amended: the dispatch step performs no supersede re-check - it never
reads the parent prazo.  A deadline-linked notification whose prazo has
become CANCELADO or CUMPRIDO is processed like any other: with no preference
row for its recipient, the in-app channel is invoked for it and it comes out
of the sweep unchanged (still PENDENTE, `erro_envio` untouched), never FALHA
with reason "superseded". -/
theorem sweep_no_supersede_spec (prazos : List Prazo)
    (rows : List Notificacao) (prefsRows : List PreferenciaNotificacao)
    (eid : Nat) (now : Int) (p : Prazo) (n : Notificacao)
    (hp : p ∈ prazos)
    (hterm : p.status = StatusPrazo.cancelado ∨
      p.status = StatusPrazo.cumprido)
    (hlink : n.prazo_id = some p.id)
    (hnd : (rows.map (fun m => m.id)).Nodup)
    (hsel : n ∈ NotificacaoRepository.get_pendentes_envio rows now none 100)
    (hpref : PreferenciaNotificacaoRepository.get_by_usuario prefsRows eid
      n.usuario_id = none) :
    rowById (NotificacaoService.processar_pendentes rows prefsRows eid
      now).rows n.id = some n ∧
    n.status = StatusNotificacao.pendente ∧
    (n.id, CanalNotificacao.in_app) ∈
      (NotificacaoService.processar_pendentes rows prefsRows eid
        now).invocados := by
  have hmem : n ∈ rows := mem_rows_of_sel hsel
  have hrow : rowById rows n.id = some n := rowById_of_mem hmem hnd
  have hnd' : ((NotificacaoRepository.get_pendentes_envio rows now none
      100).map (fun m => m.id)).Nodup := sel_ids_nodup hnd
  have hfold := sweep_fold_hit prefsRows eid now
    (NotificacaoRepository.get_pendentes_envio rows now none 100)
    ⟨0, rows, []⟩ n hnd' hsel hrow
  have hproc : NotificacaoService.processar_pendentes rows prefsRows eid now =
      (NotificacaoRepository.get_pendentes_envio rows now none 100).foldl
        (NotificacaoService.processarStep prefsRows eid now) ⟨0, rows, []⟩ :=
    rfl
  refine ⟨?_, status_of_sel hsel, ?_⟩
  · rw [hproc, hfold]
    simp [hpref]
  · rw [hproc, sweep_fold_invocados]
    simp only [List.nil_append]
    exact List.mem_map_of_mem _
      (List.mem_filter.mpr ⟨hsel, by simp [hpref]⟩)

/-- Witness for the C3 amended theorem at the one-row stores. -/
theorem sweep_no_supersede_spec_witness :
    rowById (NotificacaoService.processar_pendentes [notifDoPrazo] [] 1
      50).rows notifDoPrazo.id = some notifDoPrazo ∧
    notifDoPrazo.status = StatusNotificacao.pendente ∧
    (notifDoPrazo.id, CanalNotificacao.in_app) ∈
      (NotificacaoService.processar_pendentes [notifDoPrazo] [] 1
        50).invocados :=
  sweep_no_supersede_spec [prazoCancelado] [notifDoPrazo] [] 1 50
    prazoCancelado notifDoPrazo (by decide) (Or.inl rfl) rfl (by decide)
    (by decide) rfl

/-- C4: `get_pendentes_envio` has no tenant filter, so the sweep run for
tenant 1 selects tenant 2's pending `notifOutroTenant`, counts it as
processed and invokes the in-app channel for it; only the status update is
stopped by the tenant-filtered repository update. -/
theorem sweep_cross_tenant_eval :
    notifOutroTenant.escritorio_id = 2 ∧
    NotificacaoRepository.get_pendentes_envio [notifBase, notifOutroTenant]
        50 none 100 = [notifBase, notifOutroTenant] ∧
    NotificacaoService.processar_pendentes [notifBase, notifOutroTenant] [] 1
        50 =
      ⟨2, [notifBase, notifOutroTenant],
       [(1, CanalNotificacao.in_app), (2, CanalNotificacao.in_app)]⟩ := by
  refine ⟨rfl, rfl, rfl⟩

/-- C6: with recipient 10's stored preference row disabling the
notification's category, dispatching the pending `notifBase` does not mark
it ENVIADA with no channel call - `_enviar_notificacao` reads the
nonexistent `prefs.tipos_ativos` before reaching the suppression branch, the
error is caught by `processar_pendentes`, and the row ends FALHA with
`enviada_em` still null (no channel was invoked either way). -/
theorem suppressed_category_eval :
    prefsVencendoOff.prazo_vencendo_enabled = false ∧
    prefsVencendoOff.usuario_id = notifBase.usuario_id ∧
    NotificacaoService.enviar_notificacao [notifBase] [prefsVencendoOff] 1 50
        notifBase =
      Except.error (PyError.attributeError "tipos_ativos") ∧
    NotificacaoService.processar_pendentes [notifBase] [prefsVencendoOff] 1
        50 =
      ⟨0, [{ notifBase with status := StatusNotificacao.falha }], []⟩ ∧
    ({ notifBase with status := StatusNotificacao.falha } :
      Notificacao).enviada_em = none := by
  refine ⟨rfl, rfl, rfl, rfl, rfl⟩
